import Mathlib

/-!
Verification of the request-orchestration engine of `miner_control_app.py`
(class `MinerControlApp`): the schedule resolver `determine_mode`, the retry
engine `make_request`, the session operations `login`/`logout`, the setters
`set_profile`/`set_curtail` with their unauthorized-re-login recovery, the
per-device cycle `process_miner`, and the end-of-cycle sleep logic of `start`.

The embedding is shallow: instants are UTC microseconds since an epoch
(the resolution of Python `datetime`); the HTTP world is an oracle mapping
attempt indices to per-attempt results; the token store is a function from
device address to an optional entry; Python exceptions are `Except` values.
-/

set_option autoImplicit false

namespace MinerControl

/-! ## Time model

Python `datetime.now(timezone.utc)` is modelled as a single instant `t`,
measured in microseconds since an epoch midnight.  `.hour` extracts the
hour-of-day; `.replace(hour := h, minute := 0, second := 0, microsecond := 0)`
keeps the date and zeroes everything below the hour. -/

/-- Microseconds per hour (`datetime` resolution is the microsecond). -/
def usPerHour : Nat := 3600 * 1000000

/-- Microseconds per day. -/
def usPerDay : Nat := 24 * usPerHour

/-- `datetime.hour` of an instant: hour-of-day in `[0, 24)`. -/
def hourOfDay (t : Nat) : Nat := t % usPerDay / usPerHour

/-- The day index of an instant (which calendar day it falls on). -/
def dayOf (t : Nat) : Nat := t / usPerDay

/-- `t.replace(hour=h, minute=0, second=0, microsecond=0)`:
same calendar day, at exactly hour `h`. -/
def replaceHour (t h : Nat) : Nat := dayOf t * usPerDay + h * usPerHour

/-! ## Schedule resolver: `determine_mode` -/

/-- Operation profile of a miner (`'overclock' | 'normal' | 'underclock'`). -/
inductive Profile where
  | overclock
  | normal
  | underclock
  deriving DecidableEq, Repr

/-- Curtailment mode of a miner (`'active' | 'sleep'`). -/
inductive CurtailMode where
  | active
  | sleep
  deriving DecidableEq, Repr

/-- `MinerControlApp.determine_mode`, as a function of the current instant
`t`.  The source reads `datetime.now(timezone.utc).hour` and branches on the
four 6-hour bands (`0 <= current_hour` is vacuous for `Nat`); the last band
returns midnight of the current day plus `timedelta(days=1)`. -/
def determine_mode (t : Nat) : Profile × CurtailMode × Nat :=
  let current_hour := hourOfDay t
  if current_hour < 6 then
    (.overclock, .active, replaceHour t 6)
  else if current_hour < 12 then
    (.normal, .active, replaceHour t 12)
  else if current_hour < 18 then
    (.underclock, .active, replaceHour t 18)
  else
    (.normal, .sleep, replaceHour t 0 + usPerDay)

/-! ## End-of-cycle sleep in `start`

After a dispatch batch, `start` computes
`sleep_time = (next_transition - datetime.now(timezone.utc)).total_seconds()`
(which may be negative when the batch outlasted the window), optionally
breaks out when the bounded cycle count is reached, and otherwise calls
`time.sleep(sleep_time)`.  CPython's `time.sleep` raises
`ValueError: sleep length must be non-negative` on a negative argument. -/

/-- Python `time.sleep`: raises `ValueError` on a negative duration. -/
def pySleep (d : Int) : Except String Unit :=
  if d < 0 then .error "ValueError: sleep length must be non-negative"
  else .ok ()

/-- The tail of one iteration of the `while True` loop in
`MinerControlApp.start`, after the dispatch batch has completed:
`cycles` and `cycle_count` are the bounded-iteration state, `nextTransition`
the instant computed by `determine_mode` at the head of the iteration, and
`now` the instant observed after the batch.  Returns `.ok none` when the
loop breaks, `.ok (some c)` with the new cycle count when it continues, and
`.error e` when an exception propagates out of the loop. -/
def start_cycle_tail (cycles : Option Nat) (cycle_count : Nat)
    (nextTransition now : Nat) : Except String (Option Nat) :=
  let sleep_time : Int := (nextTransition : Int) - (now : Int)
  match cycles with
  | some c =>
      if cycle_count + 1 ≥ c then .ok none
      else (pySleep sleep_time).map fun _ => some (cycle_count + 1)
  | none => (pySleep sleep_time).map fun _ => some cycle_count

/-! ## Request executor: `make_request` -/

/-- The parsed JSON body of a response, as consumed by the app:
`message` via `.get('message', '')` (default empty), `token` and `ttl`
via `.get(...)` (absent gives Python `None`). -/
structure Body where
  message : String
  token : Option String
  ttl : Option String
  deriving DecidableEq, Repr

/-- Result of one `requests.post` attempt: either a raised
`requests.RequestException` (timeout, connection error — an unparseable
error body also lands here, since `requests` JSON-decode errors are
`RequestException`s), or a response with a status code and parsed body. -/
inductive AttemptResult where
  | exn
  | resp (status : Nat) (body : Body)
  deriving DecidableEq, Repr

/-- Python `pat in msg` on strings: substring containment. -/
def pyIn (pat msg : String) : Bool := decide (pat.data <:+: msg.data)

/-- The value `make_request` hands back to its caller: the 200 response
(`success`), the response mutated to status 100 after an ignorable error
(`ignored`), the string `'unauthorized'`, or `None` (`noResponse`). -/
inductive ReqResult where
  | success (body : Body)
  | ignored
  | unauthorized
  | noResponse
  deriving DecidableEq, Repr

/-- Python truthiness of the returned value, as used by the callers'
`if response:` / `elif response:` tests: `requests.Response.__bool__` is
`status_code < 400`, so both the 200 response and the mutated status-100
response are truthy; `None` is falsy.  (Every caller compares against the
string `'unauthorized'` with `==` before any truthiness test.) -/
def ReqResult.truthy : ReqResult → Bool
  | .success _ => true
  | .ignored => true
  | .unauthorized => true
  | .noResponse => false

/-- The `for attempt in range(retries)` loop of `MinerControlApp.make_request`,
with `fuel` iterations remaining and `attempt` the current loop counter
(`fuel = retries - attempt`).  `oracle` gives the outcome of the
`requests.post` of each attempt index.  Returns the result together with the
list of `time.sleep` durations performed, in order; the source executes
`time.sleep(2 ** attempt)` at the end of every iteration that did not
return. -/
def make_request_loop (oracle : Nat → AttemptResult) (ignore_errors : List String)
    (re_login_on_unauthorized : Bool) : Nat → Nat → ReqResult × List Nat
  | 0, _ => (.noResponse, [])
  | fuel + 1, attempt =>
    match oracle attempt with
    | .resp status body =>
      if status == 200 then (.success body, [])
      else if ignore_errors.any (fun error => pyIn error body.message) then
        (.ignored, [])
      else if status == 401 && re_login_on_unauthorized then
        (.unauthorized, [])
      else
        let rest := make_request_loop oracle ignore_errors re_login_on_unauthorized
          fuel (attempt + 1)
        (rest.1, 2 ^ attempt :: rest.2)
    | .exn =>
        let rest := make_request_loop oracle ignore_errors re_login_on_unauthorized
          fuel (attempt + 1)
        (rest.1, 2 ^ attempt :: rest.2)

/-- `MinerControlApp.make_request url data retries ...`, abstracting the URL
and payload into the oracle.  Returns the result and the backoff sleeps
performed. -/
def make_request (oracle : Nat → AttemptResult) (retries : Nat)
    (re_login_on_unauthorized : Bool) (ignore_errors : List String) :
    ReqResult × List Nat :=
  make_request_loop oracle ignore_errors re_login_on_unauthorized retries 0

/-- An attempt outcome that the `make_request` loop treats as a retriable
failure under the given flags: a transport exception, or a response that is
not 200, not ignorable, and not an unauthorized-with-re-login. -/
def isRetriableFailure (ignore_errors : List String)
    (re_login_on_unauthorized : Bool) : AttemptResult → Bool
  | .exn => true
  | .resp status body =>
      !(status == 200) &&
      !(ignore_errors.any fun error => pyIn error body.message) &&
      !(status == 401 && re_login_on_unauthorized)

/-! ## Session manager: the token store, `login` and `logout` -/

/-- A `miner_tokens` entry: `{'token': token, 'ttl': ttl}` — the `ttl` key is
stored even when the response had none (then it is `None`). -/
structure TokenEntry where
  token : String
  ttl : Option String
  deriving DecidableEq, Repr

/-- The `miner_tokens` dictionary: device address to optional entry. -/
def Store := String → Option TokenEntry

/-- `self.miner_tokens[miner_ip] = entry` (insert or overwrite). -/
def Store.set (s : Store) (miner_ip : String) (entry : TokenEntry) : Store :=
  fun d => if d = miner_ip then some entry else s d

/-- `if miner_ip in self.miner_tokens: del self.miner_tokens[miner_ip]`. -/
def Store.del (s : Store) (miner_ip : String) : Store :=
  match s miner_ip with
  | some _ => fun d => if d = miner_ip then none else s d
  | none => s

/-- The empty token store. -/
def emptyStore : Store := fun _ => none

/-- `MinerControlApp.login`: posts to `/login` with `make_request`
(default flags: no re-login, no ignorable errors).  On a truthy response it
reads `token` and `ttl` from the body; `if token:` is Python truthiness, so
both a missing field and an empty string are rejected.  A non-empty token is
stored under the device (overwriting) and returned; in every other case the
store is untouched and `None` is returned. -/
def login (store : Store) (oracle : Nat → AttemptResult) (max_retries : Nat)
    (miner_ip : String) : Store × Option String :=
  match (make_request oracle max_retries false []).1 with
  | .success token_data =>
      match token_data.token with
      | some token =>
          if token = "" then (store, none)
          else (store.set miner_ip { token := token, ttl := token_data.ttl },
                some token)
      | none => (store, none)
  | _ => (store, none)

/-- `MinerControlApp.logout`: posts to `/logout` (default flags); on a truthy
response deletes the device's entry if present; on `None` leaves the store
untouched. -/
def logout (store : Store) (oracle : Nat → AttemptResult) (max_retries : Nat)
    (miner_ip : String) : Store :=
  let response := (make_request oracle max_retries false []).1
  if response.truthy then store.del miner_ip else store

/-! ## The setters `set_profile` / `set_curtail` -/

/-- Environment driving one run of a setter: at recursion depth `d`,
`reqOracle d` drives that invocation's `make_request`, and `loginResult d`
is the token returned by the `self.login` performed if that invocation got
`'unauthorized'`. -/
structure SetterEnv where
  reqOracle : Nat → Nat → AttemptResult
  loginResult : Nat → Option String

/-- Terminal state of a setter invocation chain. -/
inductive SetterEnd where
  | success
  | failed
  | abandoned
  deriving DecidableEq, Repr

/-- The shared control flow of `set_profile` and `set_curtail` (the two
methods are textually identical up to endpoint and payload): call
`make_request` with `re_login_on_unauthorized=True` and
`ignore_errors=['Miner is already in']`; if the result `== 'unauthorized'`,
call `self.login` and, if a token came back, recurse with the new token
(the source recursion is unbounded — `fuel` only bounds the model, and
`none` means the chain is longer than `fuel`); `elif response:` log success;
`else` log failure.  Returns `(number of make_request calls at this layer,
number of re-logins, terminal state)`. -/
def setter_run (env : SetterEnv) (max_retries : Nat) :
    Nat → Nat → Option (Nat × Nat × SetterEnd)
  | 0, _ => none
  | fuel + 1, depth =>
    let response :=
      (make_request (env.reqOracle depth) max_retries true
        ["Miner is already in"]).1
    if response = .unauthorized then
      match env.loginResult depth with
      | some _token =>
          match setter_run env max_retries fuel (depth + 1) with
          | some (r, l, e) => some (r + 1, l + 1, e)
          | none => none
      | none => some (1, 1, .abandoned)
    else if response.truthy then some (1, 0, .success)
    else some (1, 0, .failed)

/-- `MinerControlApp.set_profile miner_ip token profile`, with the HTTP world
and re-login outcomes supplied by `env`. -/
def set_profile (env : SetterEnv) (max_retries fuel : Nat) :
    Option (Nat × Nat × SetterEnd) :=
  setter_run env max_retries fuel 0

/-- `MinerControlApp.set_curtail miner_ip token mode`: identical control flow
to `set_profile` (only URL and payload differ). -/
def set_curtail (env : SetterEnv) (max_retries fuel : Nat) :
    Option (Nat × Nat × SetterEnd) :=
  setter_run env max_retries fuel 0

/-- A setter environment in which the first two invocations receive 401
responses (non-ignorable body) with successful re-logins, and the third
receives a 200: exercises the recursive recovery twice. -/
def doubleUnauthorizedEnv : SetterEnv where
  reqOracle := fun depth _ =>
    if depth < 2 then .resp 401 { message := "", token := none, ttl := none }
    else .resp 200 { message := "", token := none, ttl := none }
  loginResult := fun _ => some "fresh-token"

/-- Oracle for the backoff witness: a transport error on attempt 0, then a
200 response. -/
def backoffOracle : Nat → AttemptResult := fun i =>
  if i = 0 then .exn
  else .resp 200 { message := "", token := none, ttl := none }

/-- Oracle for the ignorable-error witness: every attempt is a 400 whose
message contains the ignorable substring. -/
def ignorableOracle : Nat → AttemptResult := fun _ =>
  .resp 400 { message := "Miner is already in normal profile.",
              token := none, ttl := none }

/-- Oracle for the 401-with-ignorable-message witness. -/
def ignorable401Oracle : Nat → AttemptResult := fun _ =>
  .resp 401 { message := "Miner is already in active mode.",
              token := none, ttl := none }

/-- Oracle for the login witness: a 200 response carrying a token and no
`ttl` field. -/
def loginOkOracle : Nat → AttemptResult := fun _ =>
  .resp 200 { message := "", token := some "tok123", ttl := none }

/-- A store holding one entry, for the logout witness. -/
def storeWithM1 : Store :=
  Store.set emptyStore "m1" { token := "tok123", ttl := none }

/-! ## Device cycle runner: `process_miner` -/

/-- The steps of one device cycle, in source order. -/
inductive Step where
  | loginStep
  | curtailStep
  | profileStep
  | logoutStep
  deriving DecidableEq, Repr

/-- Whether an invoked step returns normally or raises an exception. -/
inductive StepBehavior where
  | ret
  | raiseExn
  deriving DecidableEq, Repr

/-- Environment for one `process_miner` run: the token `self.login`
returned (or `None`), and the behavior of each subsequent call. -/
structure CycleEnv where
  loginResult : Option String
  curtail : StepBehavior
  profile : StepBehavior
  logoutStep : StepBehavior

/-- Executing a step behavior as a Python call: return or raise. -/
def runStep (b : StepBehavior) : Except String Unit :=
  match b with
  | .ret => .ok ()
  | .raiseExn => .error "Exception"

/-- Invoking a named call: the step is recorded in the trace, then the call
returns or raises. -/
def invoke (s : Step) (b : StepBehavior) : List Step × Except String Unit :=
  ([s], runStep b)

/-- Python sequencing of two statements: the second executes only when the
first did not raise; a raise propagates past it. -/
def pySeq (a : List Step × Except String Unit)
    (b : Unit → List Step × Except String Unit) :
    List Step × Except String Unit :=
  match a.2 with
  | .ok _ => let y := b (); (a.1 ++ y.1, y.2)
  | .error e => (a.1, .error e)

/-- A `try: ... except Exception: log` block: any raise from the body is
swallowed. -/
def pyTry (a : List Step × Except String Unit) :
    List Step × Except String Unit :=
  (a.1, .ok ())

/-- `MinerControlApp.process_miner`: `login` inside the outer `try`; when a
token is present, each of `set_curtail` (together with `determine_mode`),
`set_profile` and `logout` runs in its own `try/except Exception` block, in
that order; when no token is present, the remaining steps are skipped.
Returns the trace of invoked steps and whether an exception escaped. -/
def process_miner (env : CycleEnv) : List Step × Except String Unit :=
  pyTry
    (pySeq ([Step.loginStep], .ok ()) fun _ =>
      match env.loginResult with
      | some _token =>
          pySeq (pyTry (invoke .curtailStep env.curtail)) fun _ =>
            pySeq (pyTry (invoke .profileStep env.profile)) fun _ =>
              pyTry (invoke .logoutStep env.logoutStep)
      | none => ([], .ok ()))

/-- Setter environment for the recovery witness: every request is a plain
401 and every re-login fails. -/
def reloginFailEnv : SetterEnv where
  reqOracle := fun _ _ =>
    .resp 401 { message := "", token := none, ttl := none }
  loginResult := fun _ => none

/-- Cycle environment in which login returns no token. -/
def cycleNoToken : CycleEnv where
  loginResult := none
  curtail := .ret
  profile := .ret
  logoutStep := .ret

/-- Cycle environment in which login succeeds and `set_curtail` raises. -/
def cycleCurtailRaises : CycleEnv where
  loginResult := some "tok"
  curtail := .raiseExn
  profile := .ret
  logoutStep := .ret

end MinerControl

namespace MinerControl

/-! ## Helper lemmas -/

theorem hourOfDay_lt_24 (t : Nat) : hourOfDay t < 24 := by
  have hmod : t % usPerDay < usPerDay := Nat.mod_lt _ (by decide)
  have : t % usPerDay / usPerHour < 24 := by
    apply Nat.div_lt_of_lt_mul
    simpa [usPerDay, Nat.mul_comm] using hmod
  simpa [hourOfDay] using this

theorem hour_band_bound (t k : Nat) (h : hourOfDay t < k) :
    t < dayOf t * usPerDay + k * usPerHour := by
  have hsplit : dayOf t * usPerDay + t % usPerDay = t := by
    simpa [dayOf, Nat.mul_comm] using Nat.div_add_mod t usPerDay
  have hr : t % usPerDay < k * usPerHour := by
    have := (Nat.div_lt_iff_lt_mul (by decide : 0 < usPerHour)).mp h
    simpa [Nat.mul_comm] using this
  omega

theorem self_lt_next_day (t : Nat) : t < (dayOf t + 1) * usPerDay := by
  have hsplit : dayOf t * usPerDay + t % usPerDay = t := by
    simpa [dayOf, Nat.mul_comm] using Nat.div_add_mod t usPerDay
  have hmod : t % usPerDay < usPerDay := Nat.mod_lt _ (by decide)
  have : (dayOf t + 1) * usPerDay = dayOf t * usPerDay + usPerDay := by ring
  omega

/-- With default flags (`re_login_on_unauthorized=False`, empty
`ignore_errors`) — as `login` and `logout` call it — `make_request` can only
hand back a 200 response or `None`. -/
theorem make_request_plain_result (oracle : Nat → AttemptResult)
    (retries : Nat) :
    (∃ b, (make_request oracle retries false []).1 = .success b) ∨
      (make_request oracle retries false []).1 = .noResponse := by
  suffices h : ∀ fuel attempt,
      (∃ b, (make_request_loop oracle [] false fuel attempt).1 = .success b) ∨
        (make_request_loop oracle [] false fuel attempt).1 = .noResponse by
    exact h retries 0
  intro fuel
  induction fuel with
  | zero => intro attempt; exact Or.inr rfl
  | succ n ih =>
      intro attempt
      simp only [make_request_loop]
      cases oracle attempt with
      | exn => exact ih (attempt + 1)
      | resp status body =>
          by_cases h200 : status = 200
          · exact Or.inl ⟨body, by simp [h200]⟩
          · simpa [h200] using ih (attempt + 1)

/-- The all-failures run of the `make_request` loop: every consulted attempt
is a retriable failure, so the loop exhausts its iterations, sleeping
`2 ^ attempt` after each one, and returns `None`. -/
theorem make_request_loop_all_fail (oracle : Nat → AttemptResult)
    (ignore_errors : List String) (relogin : Bool) :
    ∀ fuel attempt,
      (∀ i, attempt ≤ i → i < attempt + fuel →
        isRetriableFailure ignore_errors relogin (oracle i) = true) →
      make_request_loop oracle ignore_errors relogin fuel attempt =
        (.noResponse, (List.range fuel).map fun i => 2 ^ (attempt + i)) := by
  intro fuel
  induction fuel with
  | zero => intro attempt _; rfl
  | succ n ih =>
      intro attempt h
      have hcur := h attempt (Nat.le_refl _) (by omega)
      have hrest := ih (attempt + 1) (fun i h1 h2 => h i (by omega) (by omega))
      have hrange : (List.range (n + 1)).map (fun i => 2 ^ (attempt + i)) =
          2 ^ attempt :: (List.range n).map fun i => 2 ^ (attempt + 1 + i) := by
        rw [List.range_succ_eq_map, List.map_cons, List.map_map]
        simp only [Nat.add_zero]
        congr 1
        apply List.map_congr_left
        intro i _
        show 2 ^ (attempt + (i + 1)) = 2 ^ (attempt + 1 + i)
        congr 1
        omega
      cases hoc : oracle attempt with
      | exn => simp [make_request_loop, hoc, hrest, hrange]
      | resp status body =>
          simp only [isRetriableFailure, hoc, Bool.and_eq_true,
            Bool.not_eq_true'] at hcur
          obtain ⟨⟨h200, hig⟩, h401⟩ := hcur
          simp only [make_request_loop, hoc]
          rw [if_neg (by simp [h200]), if_neg (by simp [hig]),
            if_neg (by simp [h401])]
          simp [hrest, hrange]

end MinerControl

namespace MinerControl

/-! ## Claim theorems -/

/-- C4: for every instant, `determine_mode` maps hour band `[0,6)` to
`(overclock, active)`, `[6,12)` to `(normal, active)`, `[12,18)` to
`(underclock, active)`, and `[18,24)` to `(normal, sleep)`. -/
theorem determine_mode_band_mapping (t : Nat) :
    (hourOfDay t < 6 →
      (determine_mode t).1 = .overclock ∧ (determine_mode t).2.1 = .active) ∧
    (6 ≤ hourOfDay t → hourOfDay t < 12 →
      (determine_mode t).1 = .normal ∧ (determine_mode t).2.1 = .active) ∧
    (12 ≤ hourOfDay t → hourOfDay t < 18 →
      (determine_mode t).1 = .underclock ∧ (determine_mode t).2.1 = .active) ∧
    (18 ≤ hourOfDay t → hourOfDay t < 24 →
      (determine_mode t).1 = .normal ∧ (determine_mode t).2.1 = .sleep) := by
  refine ⟨?_, ?_, ?_, ?_⟩ <;> intro h1 <;>
    simp only [determine_mode] <;> split_ifs <;> simp_all <;> omega

/-- Witness for C4: concrete instants in each of the four bands. -/
theorem determine_mode_band_mapping_witness :
    ((determine_mode 0).1 = .overclock ∧ (determine_mode 0).2.1 = .active) ∧
    ((determine_mode (7 * usPerHour)).1 = .normal ∧
      (determine_mode (7 * usPerHour)).2.1 = .active) ∧
    ((determine_mode (13 * usPerHour)).1 = .underclock ∧
      (determine_mode (13 * usPerHour)).2.1 = .active) ∧
    ((determine_mode (20 * usPerHour)).1 = .normal ∧
      (determine_mode (20 * usPerHour)).2.1 = .sleep) :=
  ⟨(determine_mode_band_mapping 0).1 (by decide),
   (determine_mode_band_mapping (7 * usPerHour)).2.1 (by decide) (by decide),
   (determine_mode_band_mapping (13 * usPerHour)).2.2.1 (by decide) (by decide),
   (determine_mode_band_mapping (20 * usPerHour)).2.2.2 (by decide) (by decide)⟩

/-- C2: the `nextTransition` returned by `determine_mode` is strictly later
than the instant it was computed at, and is the start of the next
6-hour-aligned band: hour 6, 12 or 18 of the same day, or midnight of the
following day (the day index is advanced, not just the hour) for the
`[18,24)` band. -/
theorem determine_mode_next_transition (t : Nat) :
    t < (determine_mode t).2.2 ∧
    (hourOfDay t < 6 →
      (determine_mode t).2.2 = dayOf t * usPerDay + 6 * usPerHour) ∧
    (6 ≤ hourOfDay t → hourOfDay t < 12 →
      (determine_mode t).2.2 = dayOf t * usPerDay + 12 * usPerHour) ∧
    (12 ≤ hourOfDay t → hourOfDay t < 18 →
      (determine_mode t).2.2 = dayOf t * usPerDay + 18 * usPerHour) ∧
    (18 ≤ hourOfDay t →
      (determine_mode t).2.2 = (dayOf t + 1) * usPerDay) := by
  constructor
  · simp only [determine_mode]
    split_ifs with h6 h12 h18
    · simpa [replaceHour] using hour_band_bound t 6 h6
    · simpa [replaceHour] using hour_band_bound t 12 h12
    · simpa [replaceHour] using hour_band_bound t 18 h18
    · have := self_lt_next_day t
      simpa [replaceHour, Nat.add_mul, Nat.one_mul] using this
  · refine ⟨?_, ?_, ?_, ?_⟩ <;> intro h1 <;>
      simp only [determine_mode] <;> split_ifs <;>
      simp_all [replaceHour, Nat.add_mul, Nat.one_mul] <;> omega

/-- Witness for C2: at instant 0 (hour 0), the next transition is 06:00 of
day 0, strictly in the future. -/
theorem determine_mode_next_transition_witness :
    0 < (determine_mode 0).2.2 ∧
    (determine_mode 0).2.2 = dayOf 0 * usPerDay + 6 * usPerHour :=
  ⟨(determine_mode_next_transition 0).1,
   (determine_mode_next_transition 0).2.1 (by decide)⟩

/-- C3 (code bug): in the unbounded-cycles mode, when the dispatch batch
completes after `nextTransition` (here `nextTransition = 100` but the
post-batch instant is `110`), `start` computes a negative `sleep_time` and
`time.sleep` raises `ValueError`, which no handler catches — the loop, and
with it the process, dies instead of proceeding immediately to the next
dispatch. -/
theorem start_negative_sleep_raises :
    start_cycle_tail none 0 100 110 =
      .error "ValueError: sleep length must be non-negative" := rfl

end MinerControl

namespace MinerControl

/-- C5 counterexample: the claim says a failed attempt is followed by no
sleep when there is no next attempt, but with `retries = 1` and a transport
error on the single attempt (attempt 0, the last one), `make_request` still
sleeps `2 ^ 0` before returning `None` — the `time.sleep(2 ** attempt)`
sits at the end of the loop body, after the final attempt too. -/
theorem make_request_sleep_after_final_attempt :
    make_request (fun _ => .exn) 1 false [] = (.noResponse, [2 ^ 0]) := rfl

/-- C5 (amended): the i-th failed attempt is followed by a sleep of exactly
`2 ^ i` time units — including the final failed attempt, after which the
sleep also happens even though no further attempt follows — and after
`retries` retriable failures with no terminal success/ignored/unauthorized
outcome the call returns `None`; a transport error on attempt 0 followed by
a 200 on attempt 1 sleeps exactly `2 ^ 0` once and returns the success. -/
theorem make_request_backoff (oracle : Nat → AttemptResult)
    (ignore_errors : List String) (relogin : Bool) (retries : Nat) :
    ((∀ i, i < retries → isRetriableFailure ignore_errors relogin (oracle i) = true) →
      make_request oracle retries relogin ignore_errors =
        (.noResponse, (List.range retries).map fun i => 2 ^ i)) ∧
    (∀ body, oracle 0 = .exn → oracle 1 = .resp 200 body → 2 ≤ retries →
      make_request oracle retries relogin ignore_errors =
        (.success body, [2 ^ 0])) := by
  constructor
  · intro h
    have := make_request_loop_all_fail oracle ignore_errors relogin retries 0
      (fun i h1 h2 => h i (by omega))
    simpa [make_request] using this
  · intro body h0 h1 hr
    obtain ⟨n, rfl⟩ : ∃ n, retries = n + 2 := ⟨retries - 2, by omega⟩
    simp [make_request, make_request_loop, h0, h1]

/-- Witness for C5: transport error then 200, with `retries = 2`. -/
theorem make_request_backoff_witness :
    make_request backoffOracle 2 false [] =
      (.success { message := "", token := none, ttl := none }, [2 ^ 0]) :=
  (make_request_backoff backoffOracle [] false 2).2
    { message := "", token := none, ttl := none } rfl rfl (by decide)

/-- C6: a first response that is non-200 with a message containing an
ignorable substring makes `make_request` return the ignored outcome at once:
no backoff sleep, no further attempt (the oracle is consulted only at index
0), and the mutated status-100 response is truthy, so a setter caller
classifies it as success, not failure. -/
theorem make_request_ignorable_outcome (oracle : Nat → AttemptResult)
    (ignore_errors : List String) (relogin : Bool) (retries status : Nat)
    (body : Body) (hr : 1 ≤ retries) (h0 : oracle 0 = .resp status body)
    (hs : ¬ status = 200)
    (hi : (ignore_errors.any fun error => pyIn error body.message) = true) :
    make_request oracle retries relogin ignore_errors = (.ignored, []) ∧
    ReqResult.truthy .ignored = true ∧
    (∀ env : SetterEnv, env.reqOracle 0 = oracle →
      ignore_errors = ["Miner is already in"] → relogin = true →
      ∀ fuel, setter_run env retries (fuel + 1) 0 = some (1, 0, .success)) := by
  obtain ⟨n, rfl⟩ : ∃ n, retries = n + 1 := ⟨retries - 1, by omega⟩
  have hmain : make_request oracle (n + 1) relogin ignore_errors =
      (.ignored, []) := by
    simp [make_request, make_request_loop, h0, hs, hi]
  refine ⟨hmain, rfl, ?_⟩
  intro env henv hie hrl fuel
  simp [setter_run, henv, ← hie, ← hrl, hmain, ReqResult.truthy]

/-- Witness for C6: a 400 response whose message contains
`'Miner is already in'`. -/
theorem make_request_ignorable_outcome_witness :
    make_request ignorableOracle 3 true ["Miner is already in"] =
      (.ignored, []) :=
  (make_request_ignorable_outcome ignorableOracle ["Miner is already in"]
    true 3 400
    { message := "Miner is already in normal profile.",
      token := none, ttl := none }
    (by decide) rfl (by decide) (by decide)).1

/-- C10: when a 401 response's message contains an ignorable substring, the
ignorable-substring check (which the source performs first) wins: the call
returns the ignored outcome, not `'unauthorized'`, and the setter caller
therefore performs no re-login recovery (0 re-logins) and reports success. -/
theorem make_request_401_ignorable_precedence (oracle : Nat → AttemptResult)
    (ignore_errors : List String) (retries : Nat) (body : Body)
    (hr : 1 ≤ retries) (h0 : oracle 0 = .resp 401 body)
    (hi : (ignore_errors.any fun error => pyIn error body.message) = true) :
    make_request oracle retries true ignore_errors = (.ignored, []) ∧
    (make_request oracle retries true ignore_errors).1 ≠ .unauthorized ∧
    (∀ env : SetterEnv, env.reqOracle 0 = oracle →
      ignore_errors = ["Miner is already in"] →
      ∀ fuel, setter_run env retries (fuel + 1) 0 = some (1, 0, .success)) := by
  obtain ⟨n, rfl⟩ : ∃ n, retries = n + 1 := ⟨retries - 1, by omega⟩
  have hmain : make_request oracle (n + 1) true ignore_errors =
      (.ignored, []) := by
    simp [make_request, make_request_loop, h0, hi]
  refine ⟨hmain, by simp [hmain], ?_⟩
  intro env henv hie fuel
  simp [setter_run, henv, ← hie, hmain, ReqResult.truthy]

/-- Witness for C10: a 401 response whose message contains
`'Miner is already in'`. -/
theorem make_request_401_ignorable_precedence_witness :
    make_request ignorable401Oracle 3 true ["Miner is already in"] =
      (.ignored, []) :=
  (make_request_401_ignorable_precedence ignorable401Oracle
    ["Miner is already in"] 3
    { message := "Miner is already in active mode.",
      token := none, ttl := none }
    (by decide) rfl (by decide)).1

end MinerControl

namespace MinerControl

/-- C7: when the login response succeeds with a non-empty token, `login`
stores (overwriting) `{token, ttl}` for the device — `ttl` stored as `none`
when the field is absent, which is no error — leaves every other device's
entry alone, and returns the token; when the token field is missing or
empty, or the request failed after all retries, it returns `none` and the
store is untouched. -/
theorem login_spec (store : Store) (oracle : Nat → AttemptResult)
    (max_retries : Nat) (miner_ip : String) :
    (∀ body token,
      (make_request oracle max_retries false []).1 = .success body →
      body.token = some token → token ≠ "" →
      (login store oracle max_retries miner_ip).2 = some token ∧
      (login store oracle max_retries miner_ip).1 miner_ip =
        some { token := token, ttl := body.ttl } ∧
      ∀ d, d ≠ miner_ip →
        (login store oracle max_retries miner_ip).1 d = store d) ∧
    (∀ body,
      (make_request oracle max_retries false []).1 = .success body →
      (body.token = none ∨ body.token = some "") →
      login store oracle max_retries miner_ip = (store, none)) ∧
    ((make_request oracle max_retries false []).1 = .noResponse →
      login store oracle max_retries miner_ip = (store, none)) := by
  refine ⟨?_, ?_, ?_⟩
  · intro body token h ht hne
    refine ⟨by simp [login, h, ht, hne], by simp [login, h, ht, hne, Store.set], ?_⟩
    intro d hd
    simp [login, h, ht, hne, Store.set, hd]
  · rintro body h (ht | ht) <;> simp [login, h, ht]
  · intro h
    simp [login, h]

/-- Witness for C7: a 200 login response with token `'tok123'` and no
`ttl`, against the empty store. -/
theorem login_spec_witness :
    (login emptyStore loginOkOracle 3 "m1").2 = some "tok123" ∧
    (login emptyStore loginOkOracle 3 "m1").1 "m1" =
      some { token := "tok123", ttl := none } ∧
    (login emptyStore loginOkOracle 3 "m1").1 "m2" = emptyStore "m2" := by
  have h := (login_spec emptyStore loginOkOracle 3 "m1").1
    { message := "", token := some "tok123", ttl := none } "tok123"
    rfl rfl (by decide)
  exact ⟨h.1, h.2.1, h.2.2 "m2" (by decide)⟩

/-- C8: when the logout request succeeds (truthy response), `logout` removes
the device's stored token if present and is a store no-op when none is
present (in both cases the device's entry afterwards is `none` and every
other entry is preserved); when the request failed after all retries, the
store — in particular any stored token — is left exactly in place. -/
theorem logout_spec (store : Store) (oracle : Nat → AttemptResult)
    (max_retries : Nat) (miner_ip : String) :
    ((make_request oracle max_retries false []).1.truthy = true →
      (logout store oracle max_retries miner_ip) miner_ip = none ∧
      ∀ d, d ≠ miner_ip →
        (logout store oracle max_retries miner_ip) d = store d) ∧
    ((make_request oracle max_retries false []).1 = .noResponse →
      logout store oracle max_retries miner_ip = store) := by
  constructor
  · intro h
    constructor
    · cases hsm : store miner_ip <;> simp [logout, h, Store.del, hsm]
    · intro d hd
      cases hsm : store miner_ip <;> simp [logout, h, Store.del, hsm, hd]
  · intro h
    simp [logout, h, ReqResult.truthy]

/-- Witness for C8: a 200 logout response against a store holding an entry
for the device. -/
theorem logout_spec_witness :
    (logout storeWithM1 loginOkOracle 3 "m1") "m1" = none ∧
    (logout storeWithM1 loginOkOracle 3 "m1") "m2" = storeWithM1 "m2" := by
  have h := (logout_spec storeWithM1 loginOkOracle 3 "m1").1 rfl
  exact ⟨h.1, h.2 "m2" (by decide)⟩

/-- C1 counterexample: the claim bounds every execution of a setter by one
re-login and two requests at its own layer, but the source recovery is a
recursive call: in an execution where the retried request is again
unauthorized and both re-logins succeed (environment
`doubleUnauthorizedEnv`), `set_profile` and `set_curtail` perform 3 requests
and 2 re-logins. -/
theorem setter_double_relogin_counterexample :
    set_profile doubleUnauthorizedEnv 3 5 = some (3, 2, .success) ∧
    set_curtail doubleUnauthorizedEnv 3 5 = some (3, 2, .success) := by
  constructor <;> rfl

/-- C1 (amended): on an `Unauthorized` outcome the setter calls login once
and, if a token is returned, re-runs itself recursively with the new token —
so the one-re-login/two-request bound holds exactly when the retried request
does not itself come back `Unauthorized`; if the re-login returns no token,
the setter terminates at once without retrying and without raising.  Both
`set_profile` and `set_curtail` behave identically. -/
theorem setter_unauthorized_recovery (env : SetterEnv)
    (max_retries fuel : Nat)
    (h0 : (make_request (env.reqOracle 0) max_retries true
      ["Miner is already in"]).1 = .unauthorized) :
    (env.loginResult 0 = none →
      set_profile env max_retries (fuel + 1) = some (1, 1, .abandoned) ∧
      set_curtail env max_retries (fuel + 1) = some (1, 1, .abandoned)) ∧
    (∀ tok, env.loginResult 0 = some tok →
      (make_request (env.reqOracle 1) max_retries true
        ["Miner is already in"]).1 ≠ .unauthorized →
      ∃ e, e ≠ SetterEnd.abandoned ∧
        set_profile env max_retries (fuel + 2) = some (2, 1, e) ∧
        set_curtail env max_retries (fuel + 2) = some (2, 1, e)) := by
  constructor
  · intro hl
    constructor <;> simp [set_profile, set_curtail, setter_run, h0, hl]
  · intro tok hl h1
    cases htr : ((make_request (env.reqOracle 1) max_retries true
        ["Miner is already in"]).1).truthy
    · refine ⟨.failed, by decide, ?_, ?_⟩ <;>
        simp [set_profile, set_curtail, setter_run, h0, hl, h1, htr]
    · refine ⟨.success, by decide, ?_, ?_⟩ <;>
        simp [set_profile, set_curtail, setter_run, h0, hl, h1, htr]

/-- Witness for C1 (amended): first request unauthorized, re-login fails —
the setters stop after one request and one re-login, abandoned. -/
theorem setter_unauthorized_recovery_witness :
    set_profile reloginFailEnv 3 1 = some (1, 1, .abandoned) ∧
    set_curtail reloginFailEnv 3 1 = some (1, 1, .abandoned) :=
  (setter_unauthorized_recovery reloginFailEnv 3 0 rfl).1 rfl

/-- C9: in a device cycle, a failed login skips curtail/profile/logout
entirely; with a token, curtail, profile and logout are all invoked in order
regardless of which of them raise (each is wrapped in its own
`try/except`); and no exception escapes `process_miner`. -/
theorem process_miner_isolation (env : CycleEnv) :
    (env.loginResult = none → (process_miner env).1 = [.loginStep]) ∧
    (∀ tok, env.loginResult = some tok →
      (process_miner env).1 =
        [.loginStep, .curtailStep, .profileStep, .logoutStep]) ∧
    (process_miner env).2 = .ok () := by
  obtain ⟨lr, c, p, lo⟩ := env
  refine ⟨?_, ?_, ?_⟩
  · rintro h
    simp only at h
    subst h
    rfl
  · intro tok h
    simp only at h
    subst h
    rfl
  · cases lr <;> rfl

/-- Witness for C9: both a failed-login cycle and a cycle in which
`set_curtail` raises. -/
theorem process_miner_isolation_witness :
    (process_miner cycleNoToken).1 = [.loginStep] ∧
    (process_miner cycleCurtailRaises).1 =
      [.loginStep, .curtailStep, .profileStep, .logoutStep] ∧
    (process_miner cycleCurtailRaises).2 = .ok () :=
  ⟨(process_miner_isolation cycleNoToken).1 rfl,
   (process_miner_isolation cycleCurtailRaises).2.1 "tok" rfl,
   (process_miner_isolation cycleCurtailRaises).2.2⟩

end MinerControl
